import Mathlib

/-!
Verification development for the AutoTaskAI pipeline (GitHub webhook →
LLM analysis → Linear task creation/update).

The TypeScript services in `src/services` are shallowly embedded as pure
Lean functions.  External I/O (the Linear GraphQL client, the OpenAI chat
endpoint, `JSON.parse`, `Date.now`) is passed in as explicit data or
function parameters; each service method is translated statement by
statement, and the tracker calls a run performs are returned as an
explicit operation trace so that "zero tracker mutations" style
properties can be stated.

JavaScript-specific value semantics (truthiness of optional strings and
numbers, `undefined < 0.7` evaluating to false, `x || y` defaulting) are
modelled by the `js*` helper functions below.  JS numbers are modelled as
rationals where arithmetic matters (`confidence`) and as integers where
only their decimal rendering matters (`estimateHours`, `priority`).
-/

namespace AutoTaskAI

/-- JS truthiness of an optional string: `undefined`, `null` and `""` are
falsy, every other string is truthy. -/
def jsTruthyStr : Option String → Bool
  | none => false
  | some s => !s.isEmpty

/-- JS `a || b` for optional strings: falsy (`undefined` or `""`) falls
through to the second operand. -/
def jsOrStr (a : Option String) (b : String) : String :=
  match a with
  | some s => if s.isEmpty then b else s
  | none => b

/-- JS `a || undefined` for optional strings: collapses `""` to
`undefined` and keeps truthy strings. -/
def jsOrUndef (a : Option String) : Option String :=
  match a with
  | some s => if s.isEmpty then none else some s
  | none => none

/-- JS truthiness of an optional integer: `undefined` and `0` are falsy. -/
def jsTruthyInt : Option Int → Bool
  | none => false
  | some n => n != 0

/-- JS `a || b` on optional numbers (modelled as integers): `undefined`
and `0` fall through. -/
def jsOrInt (a b : Option Int) : Option Int :=
  match a with
  | some n => if n = 0 then b else some n
  | none => b

/-- JS `<` against a number when the left operand may be `undefined`:
`undefined < c` is `false` (NaN comparison). -/
def jsLtOpt (a : Option ℚ) (c : ℚ) : Bool :=
  match a with
  | some q => decide (q < c)
  | none => false

/-- JS `Math.round`: round half toward positive infinity. -/
def jsMathRound (q : ℚ) : Int :=
  (q + 1/2).floor

/-- Boolean infix test on character lists. -/
def charsInfix (needle : List Char) : List Char → Bool
  | [] => needle.isEmpty
  | c :: t => needle.isPrefixOf (c :: t) || charsInfix needle t

/-- Decidable substring test, modelling JS `String.prototype.includes`. -/
def strIncludes (hay needle : String) : Bool :=
  charsInfix needle.data hay.data

/-! ## Data model (src/types) -/

/-- `task` object inside an `LLMTaskSuggestion` (src/types/llm.ts).
`estimateHours` is a JS number; it is modelled as an integer because the
source only tests its truthiness and renders it in decimal. -/
structure SuggestionTask where
  title : String
  description : String
  priority : Int
  labels : Option (List String)
  assignee : Option String
  estimateHours : Option Int
  deriving Repr, DecidableEq

/-- `action: 'create' | 'update'` of an `LLMTaskSuggestion`. -/
inductive SuggestedAction
  | create
  | update
  deriving Repr, DecidableEq

/-- String value of the action, as interpolated into error messages. -/
def SuggestedAction.str : SuggestedAction → String
  | .create => "create"
  | .update => "update"

/-- `LLMTaskSuggestion` (src/types/llm.ts).  The declared type makes
`confidence` a required number, but the value arrives from untrusted LLM
JSON, so at runtime it may be `undefined`; it is therefore modelled as an
optional rational. -/
structure LLMTaskSuggestion where
  action : SuggestedAction
  task : SuggestionTask
  existingTaskId : Option String
  reasoning : String
  confidence : Option ℚ
  deriving Repr, DecidableEq

/-- `LinearTaskSummary` (src/types/llm.ts). -/
structure LinearTaskSummary where
  id : String
  title : String
  description : Option String
  identifier : String
  state : String
  url : String
  deriving Repr, DecidableEq

/-- The fields of a Linear issue node the embedded services read
(`id`, `title`, `description`, `identifier`, awaited `state.name`, `url`). -/
structure IssueNode where
  id : String
  title : String
  description : Option String
  identifier : String
  stateName : Option String
  url : String
  deriving Repr, DecidableEq

/-- Created/updated issue as surfaced by `mapLinearIssue`; only the fields
the pipeline reads afterwards are kept. -/
structure LinearIssue where
  id : String
  identifier : String
  title : String
  deriving Repr, DecidableEq

/-- `LinearConfig` (src/types/linear.ts).  `teamId` is accessed with a
non-null assertion throughout the service, so it is modelled as present. -/
structure LinearConfig where
  teamId : String
  defaultAssigneeId : Option String
  defaultPriority : Option Int
  defaultLabelIds : Option (List String)
  deriving Repr, DecidableEq

/-- `CreateLinearIssueInput` (src/types/linear.ts), as built by
`processLLMSuggestions`. -/
structure CreateLinearIssueInput where
  title : String
  description : Option String
  teamId : String
  assigneeId : Option String
  priority : Option Int
  labelIds : Option (List String)
  projectId : Option String
  deriving Repr, DecidableEq

/-- The issue payload `createTask` sends to `client.createIssue` after
applying config defaults. -/
structure IssueCreatePayload where
  title : String
  description : Option String
  teamId : String
  priority : Int
  assigneeId : Option String
  labelIds : List String
  projectId : Option String
  deriving Repr, DecidableEq

/-! ## LinearService.enrichTaskDescription (src/services/linear.ts) -/

/-- Rendering of `Math.round(confidence * 100)` in the enrichment
template: an absent confidence renders as `NaN`. -/
def confidencePercent : Option ℚ → String
  | none => "NaN"
  | some c => toString (jsMathRound (c * 100))

/-- `enrichTaskDescription` (linear.ts lines 275-289), with
`new Date().toISOString()` passed in as `now`. -/
def enrichTaskDescription (suggestion : LLMTaskSuggestion) (repositoryName : String)
    (now : String) : String :=
  let description := suggestion.task.description
  let description := description ++ "\n\n---\n**Auto-generated from repository:** `" ++
    repositoryName ++ "`\n"
  let description := description ++ "**AI Reasoning:** " ++ suggestion.reasoning ++ "\n"
  let description := description ++ "**Confidence:** " ++
    confidencePercent suggestion.confidence ++ "%\n"
  let description := if jsTruthyInt suggestion.task.estimateHours then
      description ++ "**Estimated Hours:** " ++
        toString (suggestion.task.estimateHours.getD 0) ++ "h\n"
    else description
  description ++ "**Generated:** " ++ now

/-! ## Orchestrator event-kind derivation (src/services/orchestrator.ts) -/

/-- Repository object of a webhook payload (src/types/github.ts);
`description` is `string | null`. -/
structure GitHubRepository where
  full_name : String
  description : Option String
  deriving Repr, DecidableEq

/-- Commit object of a push payload; only the fields the pipeline reads. -/
structure GitHubCommit where
  message : String
  authorName : String
  added : List String
  removed : List String
  modified : List String
  deriving Repr, DecidableEq

/-- Pull-request object of a pull_request payload; only the fields the
pipeline reads. -/
structure GitHubPullRequest where
  number : Int
  title : String
  body : Option String
  deriving Repr, DecidableEq

/-- `GitHubWebhookPayload` as consumed by the orchestrator. -/
structure GitHubWebhookPayload where
  repository : GitHubRepository
  commits : Option (List GitHubCommit)
  pull_request : Option GitHubPullRequest
  deriving Repr, DecidableEq

/-- The two event types `determineEventType` can produce. -/
inductive EventType
  | push
  | pull_request
  deriving Repr, DecidableEq

/-- JS truthiness of `payload.commits && payload.commits.length > 0`. -/
def jsCommitsNonEmpty : Option (List GitHubCommit) → Bool
  | none => false
  | some cs => cs.length > 0

/-- `determineEventType` (orchestrator.ts lines 178-188). -/
def determineEventType (payload : GitHubWebhookPayload) : Option EventType :=
  if jsCommitsNonEmpty payload.commits then some .push
  else if payload.pull_request.isSome then some .pull_request
  else none

/-! ## LinearService tracker operations (src/services/linear.ts)

The Linear SDK client is modelled as a `TrackerBackend` record of response
functions; each embedded service method additionally returns the list of
client calls it performed, so claims about tracker mutations are claims
about this trace. -/

/-- A user node as returned by `client.users`. -/
structure LinearUserNode where
  id : String
  displayName : String
  deriving Repr, DecidableEq

/-- A label node as returned by `client.issueLabels`. -/
structure LinearLabelNode where
  id : String
  name : String
  deriving Repr, DecidableEq

/-- The `updatePayload` `updateTask` sends to `client.updateIssue`
(after its removal of `undefined` entries, which the `Option` fields
already express). -/
structure UpdateIssuePayload where
  title : Option String
  description : Option String
  priority : Option Int
  assigneeId : Option String
  labelIds : Option (List String)
  projectId : Option String
  deriving Repr, DecidableEq

/-- Result object of `client.createIssue` / `client.updateIssue`:
a success flag and an optional issue. -/
structure IssueMutationResult where
  success : Bool
  issue : Option LinearIssue
  deriving Repr, DecidableEq

/-- One call to the Linear client.  `Except.error` responses in the
backend model thrown/rejected SDK calls. -/
inductive TrackerOp
  | queryIssues (repositoryName : String) (limit : Nat)
  | queryUsers (displayName : String)
  | queryLabels
  | createIssue (payload : IssueCreatePayload)
  | updateIssue (taskId : String) (payload : UpdateIssuePayload)
  | createLabel (name : String)
  deriving Repr, DecidableEq

/-- Tracker calls that mutate state (issue create/update, label create). -/
def TrackerOp.isMutation : TrackerOp → Bool
  | .createIssue _ => true
  | .updateIssue _ _ => true
  | .createLabel _ => true
  | _ => false

/-- Tracker calls that dispatch a suggestion (issue create/update). -/
def TrackerOp.isDispatch : TrackerOp → Bool
  | .createIssue _ => true
  | .updateIssue _ _ => true
  | _ => false

/-- Responses of the Linear client for one pipeline run. -/
structure TrackerBackend where
  issues : String → Nat → Except String (List IssueNode)
  createIssue : IssueCreatePayload → Except String IssueMutationResult
  updateIssue : String → UpdateIssuePayload → Except String IssueMutationResult
  users : String → Except String (List LinearUserNode)
  issueLabels : Except String (List LinearLabelNode)
  createIssueLabel : String → Except String (Bool × Option LinearLabelNode)

/-- `findUserByName` (linear.ts lines 291-325): first user node's id;
a failing query is caught and yields `undefined`. -/
def findUserByName (backend : TrackerBackend) (displayName : String) :
    Option String × List TrackerOp :=
  match backend.users displayName with
  | .error _ => (none, [.queryUsers displayName])
  | .ok nodes => (nodes.head?.map LinearUserNode.id, [.queryUsers displayName])

/-- JS `Map.set`: overwrite an existing key in place, else append. -/
def mapSet (m : List (String × String)) (k v : String) : List (String × String) :=
  if m.any (fun p => p.1 = k) then m.map (fun p => if p.1 = k then (k, v) else p)
  else m ++ [(k, v)]

/-- JS `Map.get`. -/
def mapGet (m : List (String × String)) (k : String) : Option String :=
  (m.find? (fun p => p.1 = k)).map (fun p => p.2)

/-- The `existingLabelMap` of `findOrCreateLabels`: lowercased label name
to label id, in node order. -/
def buildLabelMap (nodes : List LinearLabelNode) : List (String × String) :=
  nodes.foldl (fun m l => mapSet m l.name.toLower l.id) []

/-- Per-label loop of `findOrCreateLabels` (linear.ts lines 346-392). -/
def findOrCreateLabelsGo (backend : TrackerBackend) (m : List (String × String)) :
    List String → List String × List TrackerOp
  | [] => ([], [])
  | labelName :: rest =>
    let head : List String × List TrackerOp :=
      match mapGet m labelName.toLower with
      | some existingId => ([existingId], [])
      | none =>
        match backend.createIssueLabel labelName with
        | .ok (success, newLabel) =>
          (if success then
            match newLabel with
            | some lbl => [lbl.id]
            | none => []
          else [], [.createLabel labelName])
        | .error msg =>
          if strIncludes msg "duplicate" || strIncludes msg "already exists" then
            match m.find? (fun p => strIncludes p.1.toLower labelName.toLower) with
            | some p => ([p.2], [.createLabel labelName])
            | none => ([], [.createLabel labelName])
          else ([], [.createLabel labelName])
    let tail := findOrCreateLabelsGo backend m rest
    (head.1 ++ tail.1, head.2 ++ tail.2)

/-- `findOrCreateLabels` (linear.ts lines 331-398): the outer catch turns
a failing label query into an empty id list. -/
def findOrCreateLabels (backend : TrackerBackend) (labelNames : List String) :
    List String × List TrackerOp :=
  match backend.issueLabels with
  | .error _ => ([], [.queryLabels])
  | .ok nodes =>
    let r := findOrCreateLabelsGo backend (buildLabelMap nodes) labelNames
    (r.1, .queryLabels :: r.2)

/-- JS `a || b` on optional strings where the fallback is itself
optional. -/
def jsOrOptStr (a b : Option String) : Option String :=
  if jsTruthyStr a then a else b

/-- `createTask` (linear.ts lines 27-90): applies config defaults to the
payload, calls `client.createIssue`, and wraps every failure (including
its own thrown messages) in `Failed to create Linear task: …`. -/
def createTask (config : LinearConfig) (backend : TrackerBackend)
    (input : CreateLinearIssueInput) : Except String LinearIssue × List TrackerOp :=
  let issuePayload : IssueCreatePayload :=
    { title := input.title
      description := input.description
      teamId := jsOrStr (some input.teamId) config.teamId
      priority := (jsOrInt input.priority (jsOrInt config.defaultPriority (some 3))).getD 3
      assigneeId := jsOrOptStr input.assigneeId config.defaultAssigneeId
      labelIds := match input.labelIds with
        | some l => l
        | none => config.defaultLabelIds.getD []
      projectId := input.projectId }
  match backend.createIssue issuePayload with
  | .error msg =>
    (.error ("Failed to create Linear task: " ++ msg), [.createIssue issuePayload])
  | .ok r =>
    if !r.success then
      (.error "Failed to create Linear task: Failed to create Linear issue",
       [.createIssue issuePayload])
    else
      match r.issue with
      | none =>
        (.error "Failed to create Linear task: Failed to retrieve created issue",
         [.createIssue issuePayload])
      | some issue => (.ok issue, [.createIssue issuePayload])

/-- `updateTask` (linear.ts lines 92-126). -/
def updateTask (backend : TrackerBackend) (taskId : String)
    (updates : CreateLinearIssueInput) : Except String LinearIssue × List TrackerOp :=
  let updatePayload : UpdateIssuePayload :=
    { title := some updates.title
      description := updates.description
      priority := updates.priority
      assigneeId := updates.assigneeId
      labelIds := updates.labelIds
      projectId := updates.projectId }
  match backend.updateIssue taskId updatePayload with
  | .error msg =>
    (.error ("Failed to update Linear task: " ++ msg), [.updateIssue taskId updatePayload])
  | .ok r =>
    if !r.success then
      (.error "Failed to update Linear task: Failed to update Linear issue",
       [.updateIssue taskId updatePayload])
    else
      match r.issue with
      | none =>
        (.error "Failed to update Linear task: Failed to retrieve updated issue",
         [.updateIssue taskId updatePayload])
      | some issue => (.ok issue, [.updateIssue taskId updatePayload])

/-! ## LinearService.processLLMSuggestions (linear.ts lines 165-273) -/

/-- What one loop iteration of `processLLMSuggestions` contributed. -/
inductive SuggestionOutcome
  | skipped
  | createdOne (issue : LinearIssue)
  | updatedOne (issue : LinearIssue)
  | ignored
  | failed (message : String)
  deriving Repr, DecidableEq

/-- The `{created, updated, errors}` aggregate returned by
`processLLMSuggestions` (the spec's `OperationOutcome`). -/
structure MapperResult where
  created : List LinearIssue
  updated : List LinearIssue
  errors : List String
  deriving Repr, DecidableEq

/-- The `assigneeId` ternary of the `taskInput` construction:
`suggestion.task.assignee ? await this.findUserByName(...) : undefined`. -/
def resolveAssignee (backend : TrackerBackend) (assignee : Option String) :
    Option String × List TrackerOp :=
  if jsTruthyStr assignee then findUserByName backend (assignee.getD "")
  else (none, [])

/-- The `labelIds` ternary of the `taskInput` construction:
`suggestion.task.labels ? await this.findOrCreateLabels(...) : undefined`
(an array, even empty, is truthy). -/
def resolveLabels (backend : TrackerBackend) (labels : Option (List String)) :
    Option (List String) × List TrackerOp :=
  match labels with
  | some names =>
    let r := findOrCreateLabels backend names
    (some r.1, r.2)
  | none => (none, [])

/-- Body of one loop iteration after the confidence gate: build
`taskInput` (resolving assignee and labels), then dispatch on `action`.
A create/update failure is caught and recorded as an error message. -/
def processOneBody (config : LinearConfig) (backend : TrackerBackend)
    (suggestion : LLMTaskSuggestion) (repositoryName now : String) :
    SuggestionOutcome × List TrackerOp :=
  let assigneeRes := resolveAssignee backend suggestion.task.assignee
  let labelRes := resolveLabels backend suggestion.task.labels
  let taskInput : CreateLinearIssueInput :=
    { title := suggestion.task.title
      description := some (enrichTaskDescription suggestion repositoryName now)
      teamId := config.teamId
      priority := some suggestion.task.priority
      assigneeId := assigneeRes.1
      labelIds := labelRes.1
      projectId := none }
  let prepOps := assigneeRes.2 ++ labelRes.2
  match suggestion.action with
  | .create =>
    let r := createTask config backend taskInput
    match r.1 with
    | .ok issue => (.createdOne issue, prepOps ++ r.2)
    | .error msg =>
      (.failed ("Failed to " ++ suggestion.action.str ++ " task \"" ++
        suggestion.task.title ++ "\": " ++ msg), prepOps ++ r.2)
  | .update =>
    if jsTruthyStr suggestion.existingTaskId then
      let r := updateTask backend (suggestion.existingTaskId.getD "") taskInput
      match r.1 with
      | .ok issue => (.updatedOne issue, prepOps ++ r.2)
      | .error msg =>
        (.failed ("Failed to " ++ suggestion.action.str ++ " task \"" ++
          suggestion.task.title ++ "\": " ++ msg), prepOps ++ r.2)
    else (.ignored, prepOps)

/-- One loop iteration of `processLLMSuggestions`: the confidence gate
(`suggestion.confidence < 0.7` with JS comparison semantics) skips the
suggestion before any client call; otherwise the body runs. -/
def processOne (config : LinearConfig) (backend : TrackerBackend)
    (suggestion : LLMTaskSuggestion) (repositoryName now : String) :
    SuggestionOutcome × List TrackerOp :=
  if jsLtOpt suggestion.confidence (mkRat 7 10) then (.skipped, [])
  else processOneBody config backend suggestion repositoryName now

/-- Fold one iteration's outcome into the aggregate built from the
remaining suggestions. -/
def applyOutcome (o : SuggestionOutcome) (rest : MapperResult) : MapperResult :=
  match o with
  | .createdOne i => { rest with created := i :: rest.created }
  | .updatedOne i => { rest with updated := i :: rest.updated }
  | .failed msg => { rest with errors := msg :: rest.errors }
  | .skipped => rest
  | .ignored => rest

/-- The suggestion loop of `processLLMSuggestions`, sequential and
order-preserving. -/
def processSuggestionsList (config : LinearConfig) (backend : TrackerBackend)
    (repositoryName now : String) :
    List LLMTaskSuggestion → MapperResult × List TrackerOp
  | [] => (⟨[], [], []⟩, [])
  | s :: rest =>
    let head := processOne config backend s repositoryName now
    let tail := processSuggestionsList config backend repositoryName now rest
    (applyOutcome head.1 tail.1, head.2 ++ tail.2)

/-- `processLLMSuggestions` (linear.ts lines 165-273). -/
def processLLMSuggestions (config : LinearConfig) (backend : TrackerBackend)
    (suggestions : List LLMTaskSuggestion) (repositoryName now : String) :
    MapperResult × List TrackerOp :=
  processSuggestionsList config backend repositoryName now suggestions

/-! ## LinearService.getTasksByRepository (linear.ts lines 128-163) -/

/-- Node-to-summary mapping inside the fetch loop (`issue.description ||
undefined`, `state?.name || 'Unknown'`). -/
def summarizeIssue (n : IssueNode) : LinearTaskSummary :=
  { id := n.id
    title := n.title
    description := jsOrUndef n.description
    identifier := n.identifier
    state := jsOrStr n.stateName "Unknown"
    url := n.url }

/-- `getTasksByRepository`: the whole body sits in a try/catch whose catch
returns `[]`, so every client failure degrades to an empty list and the
method never throws. -/
def getTasksByRepository (backend : TrackerBackend) (repositoryName : String)
    (limit : Nat) : List LinearTaskSummary × List TrackerOp :=
  match backend.issues repositoryName limit with
  | .ok nodes => (nodes.map summarizeIssue, [.queryIssues repositoryName limit])
  | .error _ => ([], [.queryIssues repositoryName limit])

/-! ## LLMService.analyzeGitHubChanges (src/services/llm.ts) -/

/-- The parsed LLM response before the defaulting step: each top-level
field may be absent. -/
structure ParsedAnalysis where
  summary : Option String
  suggestions : Option (List LLMTaskSuggestion)
  shouldCreateTasks : Option Bool
  deriving Repr, DecidableEq

/-- `metadata` attached to the analysis result (llm.ts lines 132-139). -/
structure AnalysisMetadata where
  analysisDate : String
  model : String
  provider : String
  tokensUsed : Option Nat
  deriving Repr, DecidableEq

/-- `LLMAnalysisResult` after defaulting: all three top-level fields are
populated. -/
structure LLMAnalysisResult where
  summary : String
  suggestions : List LLMTaskSuggestion
  shouldCreateTasks : Bool
  metadata : AnalysisMetadata
  deriving Repr, DecidableEq

/-- Console diagnostics of `analyzeGitHubChanges`; `parseFailure` carries
the raw response text printed on a JSON parse error (llm.ts line 112). -/
inductive LLMLog
  | parseSuccess
  | parseFailure (message : String) (rawResponse : String)
  | missingSuggestions
  | missingShouldCreateTasks
  | missingSummary
  deriving Repr, DecidableEq

/-- `analyzeGitHubChanges` (llm.ts lines 44-169).  The chat completion's
`choices[0]?.message?.content` is `completionContent`; `JSON.parse` is the
`jsonParse` parameter.  Thrown errors are wrapped by the outer catch as
`LLM analysis failed: …`. -/
def analyzeGitHubChanges (completionContent : Option String)
    (jsonParse : String → Except String ParsedAnalysis)
    (modelName provider analysisDate : String) (tokensUsed : Option Nat) :
    Except String LLMAnalysisResult × List LLMLog :=
  match completionContent with
  | none => (.error "LLM analysis failed: No response from LLM", [])
  | some response =>
    match jsonParse response with
    | .error parseMsg =>
      (.error ("LLM analysis failed: Failed to parse LLM JSON response: " ++ parseMsg),
       [.parseFailure parseMsg response])
    | .ok parsed =>
      let log0 := [LLMLog.parseSuccess]
      let sugRes : List LLMTaskSuggestion × List LLMLog :=
        match parsed.suggestions with
        | none => ([], log0 ++ [.missingSuggestions])
        | some l => (l, log0)
      let sctRes : Bool × List LLMLog :=
        match parsed.shouldCreateTasks with
        | none => (false, sugRes.2 ++ [.missingShouldCreateTasks])
        | some b => (b, sugRes.2)
      let sumRes : String × List LLMLog :=
        if jsTruthyStr parsed.summary then (parsed.summary.getD "", sctRes.2)
        else ("Analysis completed", sctRes.2 ++ [.missingSummary])
      (.ok { summary := sumRes.1
             suggestions := sugRes.1
             shouldCreateTasks := sctRes.1
             metadata :=
               { analysisDate := analysisDate
                 model := modelName
                 provider := provider
                 tokensUsed := tokensUsed } },
       sumRes.2)

/-! ## TaskOrchestrator (src/services/orchestrator.ts) -/

/-- The `analysisInput` handed to the Suggestion Generator
(`LLMAnalysisInput`, context flattened). -/
structure LLMAnalysisInput where
  repository : GitHubRepository
  eventType : EventType
  commits : Option (List GitHubCommit)
  pullRequest : Option GitHubPullRequest
  existingTasks : List LinearTaskSummary
  projectInfo : Option String
  deriving Repr, DecidableEq

/-- External responses for one `processGitHubEvent` run: the tracker
backend, the LLM completion content, `JSON.parse`, and the clock values. -/
structure PipelineEnv where
  tracker : TrackerBackend
  linearConfig : LinearConfig
  llmContent : Option String
  jsonParse : String → Except String ParsedAnalysis
  modelName : String
  provider : String
  analysisDate : String
  tokensUsed : Option Nat
  now : String

/-- Observable trace of one orchestrator run: the analysis input sent to
the LLM (if the LLM was invoked at all) and every tracker call made. -/
structure PipelineTrace where
  llmInput : Option LLMAnalysisInput
  trackerOps : List TrackerOp
  deriving Repr, DecidableEq

/-- `processGitHubEvent` (orchestrator.ts lines 31-176).  The
existing-task fetch sits in a try/catch that would reset `existingTasks`
to `[]`, but `getTasksByRepository` already catches internally and returns
normally, so the fetch never throws here.  An LLM failure propagates out
(the outer catch rethrows). -/
def processGitHubEvent (env : PipelineEnv) (payload : GitHubWebhookPayload) :
    Except String Unit × PipelineTrace :=
  match determineEventType payload with
  | none => (.ok (), ⟨none, []⟩)
  | some eventType =>
    let fetch := getTasksByRepository env.tracker payload.repository.full_name 50
    let analysisInput : LLMAnalysisInput :=
      { repository := payload.repository
        eventType := eventType
        commits := payload.commits
        pullRequest := payload.pull_request
        existingTasks := fetch.1
        projectInfo := jsOrUndef payload.repository.description }
    let analysis := analyzeGitHubChanges env.llmContent env.jsonParse env.modelName
      env.provider env.analysisDate env.tokensUsed
    match analysis.1 with
    | .error msg => (.error msg, ⟨some analysisInput, fetch.2⟩)
    | .ok a =>
      if !a.shouldCreateTasks then (.ok (), ⟨some analysisInput, fetch.2⟩)
      else if a.suggestions.length = 0 then (.ok (), ⟨some analysisInput, fetch.2⟩)
      else
        let results := processLLMSuggestions env.linearConfig env.tracker a.suggestions
          payload.repository.full_name env.now
        (.ok (), ⟨some analysisInput, fetch.2 ++ results.2⟩)

/-- The `{status, services}` object returned by `healthCheck`. -/
structure HealthStatus where
  status : String
  llm : String
  linear : String
  deriving Repr, DecidableEq

/-- The branch logic of `healthCheck` (orchestrator.ts lines 214-240)
over the outcome of awaiting the probe call: catch → `linear = 'error'`,
`status = 'degraded'`; then LLM status from API-key truthiness. -/
def healthCheckOn (probeResult : Except String (List LinearTaskSummary))
    (openaiApiKey : Option String) : HealthStatus :=
  let probeBranch : String × String :=
    match probeResult with
    | .ok _ => ("healthy", "healthy")
    | .error _ => ("error", "degraded")
  let llmStatus := if jsTruthyStr openaiApiKey then "healthy" else "not_configured"
  let status := if llmStatus = "not_configured" then "degraded" else probeBranch.2
  { status := status, llm := llmStatus, linear := probeBranch.1 }

/-- `healthCheck`: probes the tracker with `getTasksByRepository('test',
1)`.  That method returns normally on every backend response (its own
catch turns failures into `[]`), so the awaited probe always resolves. -/
def healthCheck (backend : TrackerBackend) (openaiApiKey : Option String) : HealthStatus :=
  healthCheckOn (Except.ok (getTasksByRepository backend "test" 1).1) openaiApiKey

/-! ## Concrete fixtures for closed evaluations -/

/-- A Linear config with a team id and no defaults. -/
def sampleConfig : LinearConfig :=
  { teamId := "team-1"
    defaultAssigneeId := none
    defaultPriority := none
    defaultLabelIds := none }

/-- A backend whose every call succeeds. -/
def okBackend : TrackerBackend :=
  { issues := fun _ _ => .ok [⟨"i1", "Old task", some "desc", "ENG-1", some "Todo", "https://linear.app/i1"⟩]
    createIssue := fun p => .ok ⟨true, some ⟨"new-1", "ENG-2", p.title⟩⟩
    updateIssue := fun taskId _ => .ok ⟨true, some ⟨taskId, "ENG-3", "Updated"⟩⟩
    users := fun _ => .ok [⟨"u1", "Alice"⟩]
    issueLabels := .ok [⟨"l1", "bug"⟩]
    createIssueLabel := fun n => .ok (true, some ⟨"l-new", n⟩) }

/-- A backend whose every call fails (network down). -/
def failBackend : TrackerBackend :=
  { issues := fun _ _ => .error "ECONNREFUSED"
    createIssue := fun _ => .error "ECONNREFUSED"
    updateIssue := fun _ _ => .error "ECONNREFUSED"
    users := fun _ => .error "ECONNREFUSED"
    issueLabels := .error "ECONNREFUSED"
    createIssueLabel := fun _ => .error "ECONNREFUSED" }

/-- An `action = 'update'` suggestion with high confidence and no
`existingTaskId`. -/
def updateNoIdSuggestion : LLMTaskSuggestion :=
  { action := .update
    task :=
      { title := "Fix X"
        description := "Fix the X bug"
        priority := 2
        labels := none
        assignee := none
        estimateHours := none }
    existingTaskId := none
    reasoning := "Commit mentions a bug"
    confidence := some (mkRat 9 10) }

/-- A high-confidence `create` suggestion. -/
def createSuggestion : LLMTaskSuggestion :=
  { action := .create
    task :=
      { title := "Fix X"
        description := "Fix the X bug"
        priority := 2
        labels := some ["bug"]
        assignee := none
        estimateHours := some 3 }
    existingTaskId := none
    reasoning := "Commit mentions a bug"
    confidence := some (mkRat 9 10) }

/-- A low-confidence suggestion (below the 0.7 gate). -/
def lowConfidenceSuggestion : LLMTaskSuggestion :=
  { createSuggestion with confidence := some (mkRat 1 2) }

/-- A suggestion whose `confidence` field is absent. -/
def noConfidenceSuggestion : LLMTaskSuggestion :=
  { createSuggestion with confidence := none }

/-- A push payload with one commit. -/
def pushPayload : GitHubWebhookPayload :=
  { repository := { full_name := "acme/repo", description := some "demo repo" }
    commits := some [⟨"fix: X", "Alice", ["a.ts"], [], ["b.ts"]⟩]
    pull_request := none }

/-- A pull-request payload without commits. -/
def prPayload : GitHubWebhookPayload :=
  { repository := { full_name := "acme/repo", description := none }
    commits := none
    pull_request := some ⟨7, "Add Y", some "body"⟩ }

/-- A payload that is neither a push nor a pull request. -/
def emptyPayload : GitHubWebhookPayload :=
  { repository := { full_name := "acme/repo", description := none }
    commits := some []
    pull_request := none }

/-- A parse function modelling `JSON.parse` succeeding with a complete
analysis object carrying one create suggestion. -/
def parseFull : String → Except String ParsedAnalysis :=
  fun _ => .ok ⟨some "summary", some [createSuggestion], some true⟩

/-- An environment whose LLM answers with a complete analysis. -/
def envOk : PipelineEnv :=
  { tracker := okBackend
    linearConfig := sampleConfig
    llmContent := some "\x7b\x7d"
    jsonParse := parseFull
    modelName := "gpt-4-turbo-preview"
    provider := "openai"
    analysisDate := "2024-05-01T00:00:00.000Z"
    tokensUsed := some 321
    now := "2024-05-01T00:00:01.000Z" }

/-- Environment whose LLM says no tasks are needed
(`shouldCreateTasks = false` with a non-empty suggestion list). -/
def envNoTasks : PipelineEnv :=
  { envOk with jsonParse := fun _ => .ok ⟨some "summary", some [createSuggestion], some false⟩ }

/-- The analysis result `envNoTasks` produces. -/
def noTasksAnalysis : LLMAnalysisResult :=
  { summary := "summary"
    suggestions := [createSuggestion]
    shouldCreateTasks := false
    metadata :=
      { analysisDate := "2024-05-01T00:00:00.000Z"
        model := "gpt-4-turbo-preview"
        provider := "openai"
        tokensUsed := some 321 } }

/-- A parse function representing `JSON.parse` succeeding with an object
missing all three top-level fields. -/
def parseEmptyObject : String → Except String ParsedAnalysis :=
  fun _ => .ok ⟨none, none, none⟩

/-- Environment whose LLM reply is not JSON. -/
def envParseError : PipelineEnv :=
  { envOk with
    llmContent := some "not json"
    jsonParse := fun _ => .error "Unexpected token o in JSON at position 1" }

/-- Environment whose tracker is unreachable. -/
def envFetchFail : PipelineEnv :=
  { envOk with tracker := failBackend }

/-! ## Helper lemmas -/

/-- Assignee lookup performs no dispatch (issue create/update) call. -/
theorem findUserByName_no_dispatch (backend : TrackerBackend) (name : String) :
    ((findUserByName backend name).2).filter TrackerOp.isDispatch = [] := by
  cases h : backend.users name <;>
    simp [findUserByName, h, TrackerOp.isDispatch, List.filter]

/-- The per-label loop performs no dispatch call. -/
theorem findOrCreateLabelsGo_no_dispatch (backend : TrackerBackend)
    (m : List (String × String)) (names : List String) :
    ((findOrCreateLabelsGo backend m names).2).filter TrackerOp.isDispatch = [] := by
  induction names with
  | nil => simp [findOrCreateLabelsGo]
  | cons n rest ih =>
    simp only [findOrCreateLabelsGo, List.filter_append]
    rw [ih]
    cases hm : mapGet m n.toLower with
    | some v => simp
    | none =>
      cases hc : backend.createIssueLabel n with
      | ok r =>
        obtain ⟨success, lbl⟩ := r
        simp [TrackerOp.isDispatch, List.filter]
      | error msg =>
        by_cases hd : (strIncludes msg "duplicate" || strIncludes msg "already exists") = true
        · cases hf : m.find? (fun p => strIncludes p.1.toLower n.toLower) <;>
            simp [hd, hf, TrackerOp.isDispatch, List.filter]
        · simp only [Bool.not_eq_true] at hd
          simp [hd, TrackerOp.isDispatch, List.filter]

/-- Label resolution performs no dispatch call. -/
theorem findOrCreateLabels_no_dispatch (backend : TrackerBackend) (names : List String) :
    ((findOrCreateLabels backend names).2).filter TrackerOp.isDispatch = [] := by
  cases h : backend.issueLabels with
  | error e => simp [findOrCreateLabels, h, TrackerOp.isDispatch, List.filter]
  | ok nodes =>
    simp [findOrCreateLabels, h, TrackerOp.isDispatch, List.filter,
      findOrCreateLabelsGo_no_dispatch]

/-! ## Claims -/

/-- C3: a suggestion with `confidence < 0.7` contributes nothing at all to
a `processLLMSuggestions` run: removing it from the head of the
suggestion list changes neither the created/updated/errors aggregate nor
the tracker-call trace — so no create, no update, no label creation, no
user lookup, and no recorded error stem from it. -/
theorem low_confidence_suggestion_skipped (config : LinearConfig)
    (backend : TrackerBackend) (s : LLMTaskSuggestion)
    (rest : List LLMTaskSuggestion) (repo now : String) (c : ℚ)
    (hc : s.confidence = some c) (hlt : c < mkRat 7 10) :
    processSuggestionsList config backend repo now (s :: rest) =
      processSuggestionsList config backend repo now rest := by
  have hgate : jsLtOpt s.confidence (mkRat 7 10) = true := by
    simp [jsLtOpt, hc, hlt]
  simp [processSuggestionsList, processOne, hgate, applyOutcome]

/-- Witness for C3 at a concrete confidence-0.5 suggestion. -/
theorem low_confidence_suggestion_skipped_witness :
    lowConfidenceSuggestion.confidence = some (mkRat 1 2) ∧ mkRat 1 2 < mkRat 7 10 ∧
    processSuggestionsList sampleConfig okBackend "acme/repo" "t0"
        [lowConfidenceSuggestion] =
      processSuggestionsList sampleConfig okBackend "acme/repo" "t0" [] :=
  ⟨rfl, by decide,
    low_confidence_suggestion_skipped sampleConfig okBackend lowConfidenceSuggestion
      [] "acme/repo" "t0" (mkRat 1 2) rfl (by decide)⟩

/-- C10: a suggestion whose `confidence` field is absent is not skipped by
the gate: the JS comparison `undefined < 0.7` is false, so the iteration
runs the full body (assignee resolution, label resolution, dispatch)
exactly as a suggestion that passed the gate would. -/
theorem undefined_confidence_passes_gate (config : LinearConfig)
    (backend : TrackerBackend) (s : LLMTaskSuggestion) (repo now : String)
    (h : s.confidence = none) :
    jsLtOpt s.confidence (mkRat 7 10) = false ∧
    processOne config backend s repo now = processOneBody config backend s repo now := by
  have hgate : jsLtOpt s.confidence (mkRat 7 10) = false := by simp [jsLtOpt, h]
  exact ⟨hgate, by simp [processOne, hgate]⟩

/-- Witness for C10: the confidence-free create suggestion reaches
dispatch and creates an issue. -/
theorem undefined_confidence_passes_gate_witness :
    noConfidenceSuggestion.confidence = none ∧
    processOne sampleConfig okBackend noConfidenceSuggestion "acme/repo" "t0" =
      processOneBody sampleConfig okBackend noConfidenceSuggestion "acme/repo" "t0" ∧
    (processOne sampleConfig okBackend noConfidenceSuggestion "acme/repo" "t0").1 =
      .createdOne ⟨"new-1", "ENG-2", "Fix X"⟩ :=
  ⟨rfl,
    (undefined_confidence_passes_gate sampleConfig okBackend noConfidenceSuggestion
      "acme/repo" "t0" rfl).2,
    by decide⟩

/-- C9: description enrichment is deterministic modulo the timestamp:
the output is a timestamp-independent stem followed by the
`**Generated:**` field, and the stem is the original body plus a trailer
carrying the repository name, the reasoning, the rounded confidence
percentage, and — exactly when the estimate is a truthy number — the
estimated-hours line. -/
theorem enrichTaskDescription_deterministic (s : LLMTaskSuggestion) (repo : String) :
    ∃ stem,
      (∀ now, enrichTaskDescription s repo now = stem ++ "**Generated:** " ++ now) ∧
      stem = s.task.description ++ "\n\n---\n**Auto-generated from repository:** `" ++
        repo ++ "`\n" ++ "**AI Reasoning:** " ++ s.reasoning ++ "\n" ++
        "**Confidence:** " ++ confidencePercent s.confidence ++ "%\n" ++
        (if jsTruthyInt s.task.estimateHours then
          "**Estimated Hours:** " ++ toString (s.task.estimateHours.getD 0) ++ "h\n"
        else "") := by
  refine ⟨_, fun now => ?_, rfl⟩
  unfold enrichTaskDescription
  cases h : jsTruthyInt s.task.estimateHours with
  | false => simp [h, String.append_assoc]
  | true =>
    simp [h, String.append_assoc]
    rw [← String.append_assoc "%\n" "**Estimated Hours:** "]
    simp

/-- C5: event-kind derivation is total over payload shapes: non-empty
commits give `push`; otherwise a present pull-request object gives
`pull_request`; otherwise no event type is derived and the orchestrator
returns normally without contacting the LLM or the tracker. -/
theorem determineEventType_total (p : GitHubWebhookPayload) :
    (jsCommitsNonEmpty p.commits = true → determineEventType p = some .push) ∧
    (jsCommitsNonEmpty p.commits = false → p.pull_request.isSome = true →
      determineEventType p = some .pull_request) ∧
    (jsCommitsNonEmpty p.commits = false → p.pull_request = none →
      determineEventType p = none ∧
      ∀ env, processGitHubEvent env p = (.ok (), ⟨none, []⟩)) := by
  refine ⟨fun h => ?_, fun h1 h2 => ?_, fun h1 h2 => ?_⟩
  · simp [determineEventType, h]
  · simp [determineEventType, h1, h2]
  · have hnone : determineEventType p = none := by
      simp [determineEventType, h1, h2]
    refine ⟨hnone, fun env => ?_⟩
    simp [processGitHubEvent, hnone]

/-- Witness for C5 on concrete push, pull-request and empty payloads. -/
theorem determineEventType_total_witness :
    determineEventType pushPayload = some .push ∧
    determineEventType prPayload = some .pull_request ∧
    determineEventType emptyPayload = none ∧
    processGitHubEvent envOk emptyPayload = (.ok (), ⟨none, []⟩) :=
  ⟨(determineEventType_total pushPayload).1 rfl,
    (determineEventType_total prPayload).2.1 rfl rfl,
    ((determineEventType_total emptyPayload).2.2 rfl rfl).1,
    ((determineEventType_total emptyPayload).2.2 rfl rfl).2 envOk⟩

/-- The existing-task fetch only queries; it performs no mutation. -/
theorem getTasksByRepository_no_mutation (backend : TrackerBackend)
    (repo : String) (limit : Nat) :
    ((getTasksByRepository backend repo limit).2).filter TrackerOp.isMutation = [] := by
  cases h : backend.issues repo limit <;>
    simp [getTasksByRepository, h, TrackerOp.isMutation, List.filter]

/-- Assignee resolution of the `taskInput` construction performs no
dispatch call. -/
theorem resolveAssignee_no_dispatch (backend : TrackerBackend)
    (assignee : Option String) :
    ((resolveAssignee backend assignee).2).filter TrackerOp.isDispatch = [] := by
  cases h : jsTruthyStr assignee <;>
    simp [resolveAssignee, h, findUserByName_no_dispatch]

/-- Label resolution of the `taskInput` construction performs no dispatch
call. -/
theorem resolveLabels_no_dispatch (backend : TrackerBackend)
    (labels : Option (List String)) :
    ((resolveLabels backend labels).2).filter TrackerOp.isDispatch = [] := by
  cases labels <;> simp [resolveLabels, findOrCreateLabels_no_dispatch]

/-- An `update` iteration without a truthy `existingTaskId` that passed
the gate ends in the `ignored` outcome, and its operations contain no
dispatch call. -/
theorem processOneBody_update_without_id (config : LinearConfig)
    (backend : TrackerBackend) (s : LLMTaskSuggestion) (repo now : String)
    (hact : s.action = .update)
    (hid : jsTruthyStr s.existingTaskId = false) :
    processOneBody config backend s repo now =
      (.ignored, (resolveAssignee backend s.task.assignee).2 ++
        (resolveLabels backend s.task.labels).2) ∧
    ((resolveAssignee backend s.task.assignee).2 ++
      (resolveLabels backend s.task.labels).2).filter TrackerOp.isDispatch = [] := by
  constructor
  · simp only [processOneBody, hact, hid, Bool.false_eq_true, if_false]
  · rw [List.filter_append, resolveAssignee_no_dispatch, resolveLabels_no_dispatch]
    rfl

/-- C1 amended: a suggestion with `action = 'update'`, confidence past the
gate and no truthy `existingTaskId` is silently ignored by the dispatch:
nothing is appended to `errors` (nor to `created`/`updated`), no issue
create or update call is made for it, and the remaining suggestions are
processed unchanged — so for a single such suggestion the final errors
list has length 0, not 1. -/
theorem update_without_id_silently_ignored (config : LinearConfig)
    (backend : TrackerBackend) (s : LLMTaskSuggestion)
    (rest : List LLMTaskSuggestion) (repo now : String)
    (hgate : jsLtOpt s.confidence (mkRat 7 10) = false)
    (hact : s.action = .update)
    (hid : jsTruthyStr s.existingTaskId = false) :
    (processSuggestionsList config backend repo now (s :: rest)).1 =
      (processSuggestionsList config backend repo now rest).1 ∧
    (processSuggestionsList config backend repo now (s :: rest)).2.filter
        TrackerOp.isDispatch =
      (processSuggestionsList config backend repo now rest).2.filter
        TrackerOp.isDispatch := by
  obtain ⟨hbody, hops⟩ :=
    processOneBody_update_without_id config backend s repo now hact hid
  have hone : processOne config backend s repo now =
      (.ignored, (resolveAssignee backend s.task.assignee).2 ++
        (resolveLabels backend s.task.labels).2) := by
    simp [processOne, hgate, hbody]
  constructor
  · simp [processSuggestionsList, hone, applyOutcome]
  · simp [processSuggestionsList, hone, List.filter_append,
      resolveAssignee_no_dispatch, resolveLabels_no_dispatch]

/-- Witness for the amended C1 at a concrete update-without-id
suggestion. -/
theorem update_without_id_silently_ignored_witness :
    updateNoIdSuggestion.action = .update ∧
    updateNoIdSuggestion.existingTaskId = none ∧
    (processSuggestionsList sampleConfig okBackend "acme/repo" "t0"
        [updateNoIdSuggestion]).1 =
      (processSuggestionsList sampleConfig okBackend "acme/repo" "t0" []).1 :=
  ⟨rfl, rfl,
    (update_without_id_silently_ignored sampleConfig okBackend updateNoIdSuggestion
      [] "acme/repo" "t0" rfl rfl rfl).1⟩

/-- Counterexample to C1 as stated: processing the single high-confidence
`update` suggestion with no `existingTaskId` appends no message at all,
so the final errors list has length 0, not 1. -/
theorem update_without_id_no_error_counterexample :
    (processLLMSuggestions sampleConfig okBackend [updateNoIdSuggestion]
        "acme/repo" "t0").1.errors = [] ∧
    (processLLMSuggestions sampleConfig okBackend [updateNoIdSuggestion]
        "acme/repo" "t0").1.errors.length ≠ 1 :=
  ⟨rfl, by decide⟩

/-- C2 amended: the health check's overall status reflects only API-key
presence.  Because `getTasksByRepository` catches tracker failures
internally and returns `[]`, the probe call never rejects: the catch
branch that would set `services.linear = 'error'` and degrade the status
is unreachable, so `services.linear` is always `'healthy'` and a failing
tracker backend does not yield a degraded status. -/
theorem healthCheck_status_from_apiKey_only (backend : TrackerBackend)
    (apiKey : Option String) :
    (healthCheck backend apiKey).linear = "healthy" ∧
    (healthCheck backend apiKey).llm =
      (if jsTruthyStr apiKey then "healthy" else "not_configured") ∧
    (healthCheck backend apiKey).status =
      (if jsTruthyStr apiKey then "healthy" else "degraded") := by
  cases h : jsTruthyStr apiKey <;> simp [healthCheck, healthCheckOn, h]

/-- Counterexample to C2 as stated: a backend whose every call fails
still yields `services.linear = 'healthy'` and overall `'healthy'` status
when the API key is present. -/
theorem healthCheck_tracker_failure_counterexample :
    healthCheck failBackend (some "sk-test") =
      { status := "healthy", llm := "healthy", linear := "healthy" } ∧
    (healthCheck failBackend (some "sk-test")).status ≠ "degraded" :=
  ⟨rfl, by decide⟩

/-- C4: when the LLM analysis comes back with `shouldCreateTasks = false`
or with an empty suggestion list, the orchestrator returns normally and
its tracker trace contains no mutation, whatever the suggestions say. -/
theorem early_return_performs_no_mutations (env : PipelineEnv)
    (payload : GitHubWebhookPayload) (a : LLMAnalysisResult)
    (ha : (analyzeGitHubChanges env.llmContent env.jsonParse env.modelName
      env.provider env.analysisDate env.tokensUsed).1 = .ok a)
    (h : a.shouldCreateTasks = false ∨ a.suggestions = []) :
    (processGitHubEvent env payload).1 = .ok () ∧
    (processGitHubEvent env payload).2.trackerOps.filter TrackerOp.isMutation = [] := by
  cases hdet : determineEventType payload with
  | none => simp [processGitHubEvent, hdet]
  | some et =>
    have hfetch := getTasksByRepository_no_mutation env.tracker
      payload.repository.full_name 50
    rcases h with h | h
    · simp [processGitHubEvent, hdet, ha, h, hfetch]
    · cases hsct : a.shouldCreateTasks
      · simp [processGitHubEvent, hdet, ha, hsct, hfetch]
      · simp [processGitHubEvent, hdet, ha, hsct, h, hfetch]

/-- Witness for C4: the concrete `shouldCreateTasks = false` environment
returns normally with a mutation-free trace. -/
theorem early_return_performs_no_mutations_witness :
    (analyzeGitHubChanges envNoTasks.llmContent envNoTasks.jsonParse
        envNoTasks.modelName envNoTasks.provider envNoTasks.analysisDate
        envNoTasks.tokensUsed).1 = .ok noTasksAnalysis ∧
    noTasksAnalysis.shouldCreateTasks = false ∧
    noTasksAnalysis.suggestions ≠ [] ∧
    (processGitHubEvent envNoTasks pushPayload).1 = .ok () ∧
    (processGitHubEvent envNoTasks pushPayload).2.trackerOps.filter
      TrackerOp.isMutation = [] :=
  ⟨rfl, rfl, by decide,
    (early_return_performs_no_mutations envNoTasks pushPayload noTasksAnalysis
      rfl (Or.inl rfl)).1,
    (early_return_performs_no_mutations envNoTasks pushPayload noTasksAnalysis
      rfl (Or.inl rfl)).2⟩

/-- C6: whenever the LLM response parses as a JSON object, the analysis
never fails on missing top-level fields: absent `suggestions` defaults to
`[]`, absent `shouldCreateTasks` to `false`, absent `summary` to
`"Analysis completed"`, and an `ok` result is always returned. -/
theorem llm_missing_fields_defaulted (content : Option String)
    (jsonParse : String → Except String ParsedAnalysis)
    (modelName provider analysisDate : String) (tokensUsed : Option Nat)
    (response : String) (parsed : ParsedAnalysis)
    (hc : content = some response)
    (hp : jsonParse response = .ok parsed) :
    ∃ r, (analyzeGitHubChanges content jsonParse modelName provider
        analysisDate tokensUsed).1 = .ok r ∧
      (parsed.suggestions = none → r.suggestions = []) ∧
      (parsed.shouldCreateTasks = none → r.shouldCreateTasks = false) ∧
      (parsed.summary = none → r.summary = "Analysis completed") := by
  subst hc
  simp only [analyzeGitHubChanges, hp]
  refine ⟨_, rfl, ?_, ?_, ?_⟩ <;> intro h <;> simp [h, jsTruthyStr]

/-- Witness for C6: a parsed object missing all three fields yields the
fully defaulted result. -/
theorem llm_missing_fields_defaulted_witness :
    (∃ r, (analyzeGitHubChanges (some "\x7b\x7d") parseEmptyObject "m" "p" "d"
        none).1 = .ok r ∧
      ((⟨none, none, none⟩ : ParsedAnalysis).suggestions = none →
        r.suggestions = []) ∧
      ((⟨none, none, none⟩ : ParsedAnalysis).shouldCreateTasks = none →
        r.shouldCreateTasks = false) ∧
      ((⟨none, none, none⟩ : ParsedAnalysis).summary = none →
        r.summary = "Analysis completed")) ∧
    (analyzeGitHubChanges (some "\x7b\x7d") parseEmptyObject "m" "p" "d" none).1 =
      .ok ⟨"Analysis completed", [], false, ⟨"d", "m", "p", none⟩⟩ :=
  ⟨llm_missing_fields_defaulted (some "\x7b\x7d") parseEmptyObject "m" "p" "d"
    none "\x7b\x7d" ⟨none, none, none⟩ rfl rfl, rfl⟩

/-- C7: an LLM response body that fails JSON parsing is fatal: the raw
response text is preserved in the parse-failure diagnostic, the wrapped
error propagates out of `processGitHubEvent`, and the run's tracker trace
contains no mutation. -/
theorem invalid_llm_json_fatal (env : PipelineEnv)
    (payload : GitHubWebhookPayload) (response msg : String)
    (hdet : (determineEventType payload).isSome = true)
    (hc : env.llmContent = some response)
    (hp : env.jsonParse response = .error msg) :
    (analyzeGitHubChanges env.llmContent env.jsonParse env.modelName
        env.provider env.analysisDate env.tokensUsed).2 =
      [.parseFailure msg response] ∧
    (processGitHubEvent env payload).1 =
      .error ("LLM analysis failed: Failed to parse LLM JSON response: " ++ msg) ∧
    (processGitHubEvent env payload).2.trackerOps.filter TrackerOp.isMutation = [] := by
  have hana : analyzeGitHubChanges env.llmContent env.jsonParse env.modelName
      env.provider env.analysisDate env.tokensUsed =
      (.error ("LLM analysis failed: Failed to parse LLM JSON response: " ++ msg),
        [.parseFailure msg response]) := by
    simp [analyzeGitHubChanges, hc, hp]
  obtain ⟨et, het⟩ := Option.isSome_iff_exists.mp hdet
  refine ⟨by simp [hana], ?_, ?_⟩ <;>
    simp [processGitHubEvent, het, hana, getTasksByRepository_no_mutation]

/-- Witness for C7 at the literal response `"not json"`. -/
theorem invalid_llm_json_fatal_witness :
    (analyzeGitHubChanges envParseError.llmContent envParseError.jsonParse
        envParseError.modelName envParseError.provider envParseError.analysisDate
        envParseError.tokensUsed).2 =
      [.parseFailure "Unexpected token o in JSON at position 1" "not json"] ∧
    (processGitHubEvent envParseError pushPayload).1 =
      .error ("LLM analysis failed: Failed to parse LLM JSON response: " ++
        "Unexpected token o in JSON at position 1") ∧
    (processGitHubEvent envParseError pushPayload).2.trackerOps.filter
      TrackerOp.isMutation = [] :=
  invalid_llm_json_fatal envParseError pushPayload "not json"
    "Unexpected token o in JSON at position 1" rfl rfl rfl

/-- C8: when the tracker query behind the existing-task fetch fails, the
orchestrator still invokes the LLM, with an analysis input whose
`existingTasks` context is the empty list. -/
theorem fetch_failure_uses_empty_context (env : PipelineEnv)
    (payload : GitHubWebhookPayload) (e : String)
    (hq : env.tracker.issues payload.repository.full_name 50 = .error e)
    (hdet : (determineEventType payload).isSome = true) :
    ∃ inp, (processGitHubEvent env payload).2.llmInput = some inp ∧
      inp.existingTasks = [] := by
  obtain ⟨et, het⟩ := Option.isSome_iff_exists.mp hdet
  have hfetch : getTasksByRepository env.tracker payload.repository.full_name 50 =
      ([], [.queryIssues payload.repository.full_name 50]) := by
    simp [getTasksByRepository, hq]
  refine ⟨{ repository := payload.repository
            eventType := et
            commits := payload.commits
            pullRequest := payload.pull_request
            existingTasks := []
            projectInfo := jsOrUndef payload.repository.description }, ?_, rfl⟩
  cases hana : (analyzeGitHubChanges env.llmContent env.jsonParse env.modelName
      env.provider env.analysisDate env.tokensUsed).1 with
  | error m => simp [processGitHubEvent, het, hfetch, hana]
  | ok a =>
    cases hsct : a.shouldCreateTasks
    · simp [processGitHubEvent, het, hfetch, hana, hsct]
    · by_cases hlen : a.suggestions.length = 0 <;>
        simp [processGitHubEvent, het, hfetch, hana, hsct, hlen]

/-- Witness for C8: with every tracker call failing, the LLM is still
invoked and sees an empty existing-task list. -/
theorem fetch_failure_uses_empty_context_witness :
    envFetchFail.tracker.issues pushPayload.repository.full_name 50 =
      .error "ECONNREFUSED" ∧
    ∃ inp, (processGitHubEvent envFetchFail pushPayload).2.llmInput = some inp ∧
      inp.existingTasks = [] :=
  ⟨rfl, fetch_failure_uses_empty_context envFetchFail pushPayload
    "ECONNREFUSED" rfl rfl⟩

end AutoTaskAI
